import Mathlib

/-!
# Verification of the agentgateway-poc repository

Shallow embedding of the two Python source files:

* `src/chat-ui/server.py` — a static-file HTTP server that proxies two JSON
  API routes (`/api/agents`, `/api/ask`) to a backend orchestrator
  (namespace `ChatUI`);
* `src/evaluation/run_evaluation.py` — a batch evaluation script that sends
  dataset items to a gateway, scores the replies with three LLM-as-a-judge
  calls, and aggregates the results (namespace `EvalRun`).

Python JSON values are modelled by the inductive type `JValue`; Python
numbers (ints and floats alike) are abstracted as rationals `ℚ`.  External
network calls are modelled as oracle parameters: each call site receives the
outcome (`Except String _`, where `.error` models a raised exception) of the
corresponding request.  Python exceptions are modelled as `Except.error`
carrying a message string; the exact exception texts produced by the Python
runtime are abstracted, control flow and status codes are faithful.
-/

/-- A JSON value, as produced by Python's `json.loads`.  Numbers are
abstracted as rationals; object key order is the insertion order of the
underlying `dict`. -/
inductive JValue where
  | null : JValue
  | bool (b : Bool) : JValue
  | num (q : ℚ) : JValue
  | str (s : String) : JValue
  | arr (xs : List JValue) : JValue
  | obj (kvs : List (String × JValue)) : JValue
deriving Inhabited

/-- Python truthiness (`bool(x)`) of a JSON-derived value: `None`, `False`,
`0`, `''`, `[]`, `{}` are falsy, everything else is truthy. -/
def pyTruthy : JValue → Bool
  | .null => false
  | .bool b => b
  | .num q => if q = 0 then false else true
  | .str s => s != ""
  | .arr xs => !xs.isEmpty
  | .obj kvs => !kvs.isEmpty

/-- Is the value a JSON object (a Python `dict`)? -/
def JValue.isObj : JValue → Bool
  | .obj _ => true
  | _ => false

/-- Python `v.get(k, d)` on a JSON-derived value: returns the stored value
(even `None`) when the key is present, the default when absent, and raises
`AttributeError` when `v` is not a `dict`. -/
def pyDictGet (v : JValue) (k : String) (d : JValue) : Except String JValue :=
  match v with
  | .obj kvs => .ok ((kvs.lookup k).getD d)
  | _ => .error "AttributeError"

/-- Hex digit for JSON `\uXXXX` escapes (lowercase, as `json.dumps` emits). -/
def hexDigit (n : ℕ) : Char :=
  if n < 10 then Char.ofNat (48 + n) else Char.ofNat (87 + n)

/-- Four lowercase hex digits. -/
def hex4 (n : ℕ) : String :=
  String.mk [hexDigit (n / 4096 % 16), hexDigit (n / 256 % 16),
             hexDigit (n / 16 % 16), hexDigit (n % 16)]

/-- Escape one character the way `json.dumps` (default `ensure_ascii=True`)
does: the two JSON metacharacters and the short control escapes, `\uXXXX`
for other control characters and all non-ASCII characters (surrogate pairs
above the BMP). -/
def escapeChar (c : Char) : String :=
  if c = '"' then "\\\""
  else if c = '\\' then "\\\\"
  else if c = '\n' then "\\n"
  else if c = '\t' then "\\t"
  else if c = '\r' then "\\r"
  else if c = '\x08' then "\\b"
  else if c = '\x0c' then "\\f"
  else if c.toNat < 0x20 then "\\u" ++ hex4 c.toNat
  else if c.toNat < 0x7f then String.singleton c
  else if c.toNat < 0x10000 then "\\u" ++ hex4 c.toNat
  else
    "\\u" ++ hex4 (0xD800 + (c.toNat - 0x10000) / 0x400) ++
    "\\u" ++ hex4 (0xDC00 + (c.toNat - 0x10000) % 0x400)

/-- Escape a whole string for JSON output. -/
def escapeString (s : String) : String :=
  String.join (s.data.map escapeChar)

/-- Serialized form of a JSON number.  Python distinguishes int and float
reprs; the decimal rendering of floats is abstracted (integral rationals
print as integers). -/
def numRepr (q : ℚ) : String :=
  if q.den = 1 then toString q.num else toString q

/-- Model of `json.dumps(data)` with its default separators
(`", "` between items, `": "` after keys). -/
def serialize : JValue → String
  | .null => "null"
  | .bool true => "true"
  | .bool false => "false"
  | .num q => numRepr q
  | .str s => "\"" ++ escapeString s ++ "\""
  | .arr xs =>
      "[" ++ String.intercalate ", " (xs.attach.map fun x => serialize x.1) ++ "]"
  | .obj kvs =>
      "\x7b" ++ String.intercalate ", "
        (kvs.attach.map fun kv =>
          "\"" ++ escapeString kv.1.1 ++ "\": " ++ serialize kv.1.2) ++ "\x7d"
decreasing_by
  · have := List.sizeOf_lt_of_mem x.2
    simp only [JValue.arr.sizeOf_spec]
    omega
  · have h1 := List.sizeOf_lt_of_mem kv.2
    have h2 : sizeOf kv.1.2 < sizeOf kv.1 := by
      obtain ⟨a, b⟩ := kv.1
      simp only [Prod.mk.sizeOf_spec]
      omega
    simp only [JValue.obj.sizeOf_spec]
    omega

/-- Model of Python `str(x)` for JSON-derived values, used when formatting
prompt templates.  The rendering of containers and numbers is abstracted via
`serialize`; strings format as themselves, which is the only case the
evaluation dataset exercises. -/
def pyStr : JValue → String
  | .str s => s
  | .bool true => "True"
  | .bool false => "False"
  | .null => "None"
  | v => serialize v

namespace ChatUI

/-- One HTTP response as assembled by `BaseHTTPRequestHandler.send_response`
and `send_header`: status code, headers in emission order, body text. -/
structure HttpResponse where
  status : ℕ
  headers : List (String × String)
  body : String
deriving Repr

/-- `ChatHandler.send_json` (`server.py` lines 26–33): serialize `data`,
send the status, a `Content-Type`, a `Content-Length` equal to the byte
length of the encoded body, the CORS origin header, then the body. -/
def send_json (data : JValue) (status : ℕ) : HttpResponse :=
  let response := serialize data
  { status := status
    headers := [("Content-Type", "application/json"),
                ("Content-Length", toString response.utf8ByteSize),
                ("Access-Control-Allow-Origin", "*")]
    body := response }

/-- Outcome of one forwarded request to the backend
(`urllib.request.urlopen` followed by `json.loads` of the reply body):
success with the parsed JSON, `urllib.error.URLError` (connection failure),
`json.JSONDecodeError` on the reply body, or any other exception.  Each
error constructor carries the `str()` of the exception. -/
inductive Upstream where
  | ok (v : JValue)
  | urlError (e : String)
  | jsonError (e : String)
  | otherError (e : String)

/-- Behaviour of the backend orchestrator as observed by the proxy:
the outcome of a GET to `<backend>/agents`, and the outcome of a POST to
`<backend>/ask` as a function of the forwarded JSON payload. -/
structure Backend where
  agents : Upstream
  ask : JValue → Upstream

/-- `ChatHandler.do_OPTIONS` (lines 35–40): 200 with the three CORS headers
and no body, for any request path. -/
def do_OPTIONS (_path : String) : HttpResponse :=
  { status := 200
    headers := [("Access-Control-Allow-Origin", "*"),
                ("Access-Control-Allow-Methods", "GET, POST, OPTIONS"),
                ("Access-Control-Allow-Headers", "Content-Type")]
    body := "" }

/-- Result of `ChatHandler.do_GET`: either a JSON response built by
`send_json`, or a delegation to `SimpleHTTPRequestHandler.do_GET` (static
file service) with the given `self.path`. -/
inductive GetOutcome where
  | json (r : HttpResponse)
  | static (path : String)

/-- `ChatHandler.do_GET` (lines 42–60).  `path` is the already-parsed
`urlparse(self.path).path`.  `/api/health` answers a fixed payload,
`/api/agents` proxies to the backend (any exception → 500 with the
exception text), `/` and `/index.html` serve the index, everything else is
delegated to the static file handler. -/
def do_GET (path : String) (backend : Backend) : GetOutcome :=
  if path = "/api/health" then
    .json (send_json (.obj [("status", .str "healthy"), ("service", .str "chat-ui")]) 200)
  else if path = "/api/agents" then
    match backend.agents with
    | .ok v => .json (send_json v 200)
    | .urlError e => .json (send_json (.obj [("error", .str e)]) 500)
    | .jsonError e => .json (send_json (.obj [("error", .str e)]) 500)
    | .otherError e => .json (send_json (.obj [("error", .str e)]) 500)
  else if path = "/" ∨ path = "/index.html" then
    .static "/index.html"
  else
    .static path

/-- The decoded text of a POST body, as seen after
`self.rfile.read(...).decode('utf-8')` and `json.loads`: empty string
(yields `{}` without parsing), text that is not valid JSON
(`json.loads` raises `JSONDecodeError`), or text parsing to a JSON value. -/
inductive BodyInput where
  | empty
  | invalid
  | json (v : JValue)

/-- The `/api/ask` branch of `do_POST` after `json.loads` succeeded
(lines 70–94), applied to the parsed request object.  Returns the response
and the payload forwarded to the backend, if any.  A non-`dict` body makes
`request_data.get` raise `AttributeError`, caught by the generic
`except Exception` branch → 500 (exception text abstracted). -/
def handleAsk (v : JValue) (backend : Backend) : HttpResponse × Option JValue :=
  match v with
  | .obj kvs =>
      let message := (kvs.lookup "message").getD (.str "")
      if pyTruthy message = false then
        (send_json (.obj [("error", .str "Message is required")]) 400, none)
      else
        let payload := JValue.obj [("message", message)]
        match backend.ask payload with
        | .ok result => (send_json result 200, some payload)
        | .urlError e =>
            (send_json (.obj [("error", .str ("Backend connection failed: " ++ e))]) 502,
             some payload)
        | .jsonError _ =>
            (send_json (.obj [("error", .str "Invalid JSON")]) 400, some payload)
        | .otherError e => (send_json (.obj [("error", .str e)]) 500, some payload)
  | _ => (send_json (.obj [("error", .str "AttributeError")]) 500, none)

/-- `ChatHandler.do_POST` (lines 62–96).  `path` is
`urlparse(self.path).path`.  Only `/api/ask` is served; invalid JSON bodies
hit the `except json.JSONDecodeError` branch → 400, an empty body parses as
`{}`, any other path answers 404 without touching the file system.  The
second component is the payload forwarded to the backend, if a forwarding
request was issued. -/
def do_POST (path : String) (body : BodyInput) (backend : Backend) :
    HttpResponse × Option JValue :=
  if path = "/api/ask" then
    match body with
    | .empty => handleAsk (.obj []) backend
    | .invalid => (send_json (.obj [("error", .str "Invalid JSON")]) 400, none)
    | .json v => handleAsk v backend
  else
    (send_json (.obj [("error", .str "Not found")]) 404, none)

end ChatUI

namespace EvalRun

/-- One dataset item (`dataset['items'][i]`).  The fields read with
`item[...]` in `run_evaluation` are mandatory strings; `expected_answer_contains`
is read with `.get` (no default), so an absent key is modelled as `.null`,
exactly like an explicit JSON `null`; `quality_criteria` is read with
`.get` and a default, so absence is modelled as `none`. -/
structure Item where
  id : String
  category : String
  input : String
  expected_agent : String
  expected_answer_contains : JValue
  quality_criteria : Option JValue

/-- Python `float(x)`-compatible reading of a score value, as required by
the `f"{score:.2f}"` format and by `sum(scores)`: numbers pass through,
booleans count as 0/1 (`bool` is an `int` subclass), anything else raises. -/
def asNum : JValue → Except String ℚ
  | .num q => .ok q
  | .bool b => .ok (if b then 1 else 0)
  | _ => .error "TypeError"

/-- The score recorded inside a judge verdict object:
`verdict.get('score', 0)` read as a number (0 when the key is absent). -/
def scoreOf (v : JValue) : ℚ :=
  match v with
  | .obj kvs =>
      match kvs.lookup "score" with
      | some (.num q) => q
      | some (.bool b) => if b then 1 else 0
      | _ => 0
  | _ => 0

/-- Python `x[:n]` on a JSON-derived value: slices strings and lists,
raises `TypeError` otherwise. -/
def pySlice (v : JValue) (n : ℕ) : Except String JValue :=
  match v with
  | .str s => .ok (.str (s.take n))
  | .arr xs => .ok (.arr (xs.take n))
  | _ => .error "TypeError"

/-- Python `', '.join(x)`-style element collection: a list must contain only
strings (`TypeError` otherwise), a `dict` iterates over its keys, anything
else is not iterable. -/
def pyJoinList : JValue → Except String (List String)
  | .arr xs => xs.mapM fun x =>
      match x with
      | .str s => Except.ok s
      | _ => Except.error "TypeError"
  | .obj kvs => .ok (kvs.map Prod.fst)
  | _ => .error "TypeError"

/-- `ROUTING_JUDGE_PROMPT.format(input=..., expected_agent=..., actual_agent=...)`
(lines 36–50). -/
def routingPrompt (inp expected actual : String) : String :=
  "You are evaluating an AI routing system that directs user queries to specialized agents.\n\nUser Query: "
    ++ inp ++ "\nExpected Agent: " ++ expected ++ "\nActual Agent: " ++ actual ++
  "\n\nEvaluate whether the routing decision was correct.\n\nScore from 0-1:\n- 1.0: Correct routing to expected agent\n- 0.5: Reasonable alternative routing (query could go to multiple agents)\n- 0.0: Incorrect routing\n\nRespond with ONLY a JSON object:\n\x7b\"score\": <number>, \"reasoning\": \"<brief explanation>\"\x7d"

/-- `QUALITY_JUDGE_PROMPT.format(input=..., response=..., criteria=..., expected_content=...)`
(lines 52–68). -/
def qualityPrompt (inp response criteria expectedContent : String) : String :=
  "You are evaluating an AI assistant's response quality for an enterprise help desk.\n\nUser Query: "
    ++ inp ++ "\nAgent Response: " ++ response ++ "\nQuality Criteria: " ++ criteria ++
  "\nExpected Content (if any): " ++ expectedContent ++
  "\n\nEvaluate the response on these dimensions:\n1. Relevance: Does it address the user's question?\n2. Accuracy: Is the information correct based on expected content?\n3. Helpfulness: Does it provide actionable guidance?\n4. Professionalism: Is the tone appropriate for enterprise support?\n\nScore from 0-1 (average of all dimensions).\n\nRespond with ONLY a JSON object:\n\x7b\"score\": <number>, \"relevance\": <0-1>, \"accuracy\": <0-1>, \"helpfulness\": <0-1>, \"professionalism\": <0-1>, \"reasoning\": \"<brief explanation>\"\x7d"

/-- `FACTUALITY_JUDGE_PROMPT.format(input=..., response=..., expected_content=...)`
(lines 70–84). -/
def factualityPrompt (inp response expectedContent : String) : String :=
  "You are checking if an AI response contains specific required information.\n\nUser Query: "
    ++ inp ++ "\nAgent Response: " ++ response ++ "\nMust Contain: " ++ expectedContent ++
  "\n\nCheck if the response contains the expected content (exact or semantic match).\n\nScore:\n- 1.0: All expected content present\n- 0.5: Partial match\n- 0.0: Missing expected content\n\nRespond with ONLY a JSON object:\n\x7b\"score\": <number>, \"found\": [<list of found items>], \"missing\": [<list of missing items>], \"reasoning\": \"<brief explanation>\"\x7d"

/-- Markdown fence stripping inside `call_azure_openai` (lines 117–121):
if the reply contains a ```` ```json ```` fence, take the text after the
first such fence and before the next ```` ``` ````; else the same with a
bare ```` ``` ```` fence; else the reply unchanged.
`(s.splitOn sep).length ≥ 2` is exactly Python's `sep in s`. -/
def stripFences (content : String) : String :=
  if (content.splitOn "```json").length ≥ 2 then
    (((content.splitOn "```json").getD 1 "").splitOn "```").getD 0 ""
  else if (content.splitOn "```").length ≥ 2 then
    (((content.splitOn "```").getD 1 "").splitOn "```").getD 0 ""
  else content

/-- The reply-parsing tail of `call_azure_openai` (lines 115–124): strip
fences, `json.loads(content.strip())`; on `JSONDecodeError` fall back to a
zero score with a diagnostic that embeds the (fence-stripped, not
whitespace-stripped) reply.  `loads` models `json.loads`, with `none` for a
parse failure. -/
def parse_judge_reply (loads : String → Option JValue) (content : String) : JValue :=
  let c := stripFences content
  match loads c.trim with
  | some v => v
  | none => .obj [("score", .num 0), ("reasoning", .str ("Failed to parse: " ++ c))]

/-- `call_azure_openai` (lines 87–124).  The configuration check, the HTTP
POST, `raise_for_status` and the extraction of
`response.json()['choices'][0]['message']['content']` are modelled together
as `httpResult` (exception or reply text); the deterministic reply parsing
is `parse_judge_reply`. -/
def call_azure_openai (loads : String → Option JValue) (httpResult : Except String String) :
    Except String JValue :=
  match httpResult with
  | .error e => .error e
  | .ok content => .ok (parse_judge_reply loads content)

/-- `evaluate_routing` (lines 139–147): build the routing prompt — reading
`result.get('routed_to', {}).get('agent', 'unknown')`, which raises when a
non-`dict` is encountered — and make one judge call.  `call` models
`call_azure_openai` applied to the prompt (exception or verdict). -/
def evaluate_routing (item : Item) (result : JValue)
    (call : String → Except String JValue) : Except String JValue := do
  let rt ← pyDictGet result "routed_to" (.obj [])
  let actual ← pyDictGet rt "agent" (.str "unknown")
  call (routingPrompt item.input item.expected_agent (pyStr actual))

/-- `evaluate_quality` (lines 150–163): `expected_content` defaults to
`'N/A'` when absent, lists are joined with `', '`; then one judge call on
the quality prompt. -/
def evaluate_quality (item : Item) (result : JValue)
    (call : String → Except String JValue) : Except String JValue := do
  let ec0 := match item.expected_answer_contains with
    | .null => JValue.str "N/A"
    | v => v
  let ecStr ← match ec0 with
    | .arr xs => (pyJoinList (.arr xs)).map (String.intercalate ", ")
    | v => Except.ok (pyStr v)
  let resp ← pyDictGet result "response" (.str "No response")
  let crit := item.quality_criteria.getD (.str "Provide helpful response")
  call (qualityPrompt item.input (pyStr resp) (pyStr crit) ecStr)

/-- `evaluate_factuality` (lines 166–181): with no (falsy)
`expected_answer_contains`, return the fixed full-score verdict without any
judge call; otherwise wrap a bare string into a list, read
`result.get('response', 'No response')`, join the expected items and make
one judge call. -/
def evaluate_factuality (item : Item) (result : JValue)
    (call : String → Except String JValue) : Except String JValue :=
  if pyTruthy item.expected_answer_contains = false then
    .ok (.obj [("score", .num 1), ("reasoning", .str "No expected content specified")])
  else do
    let wrapped := match item.expected_answer_contains with
      | .str s => JValue.arr [.str s]
      | v => v
    let resp ← pyDictGet result "response" (.str "No response")
    let parts ← pyJoinList wrapped
    call (factualityPrompt item.input (pyStr resp) (String.intercalate ", " parts))

/-- The externally observable outcomes for one loop iteration of
`run_evaluation`: the result of `run_demo_query` (success with the parsed
JSON reply, or a raised exception), the measured latency, the Langfuse
trace id, and — for each of the three judge call sites — the outcome of
`call_azure_openai` as a function of the prompt sent. -/
structure ItemOutcome where
  demoResult : Except String JValue
  latency : ℚ
  traceId : String
  routingCall : String → Except String JValue
  qualityCall : String → Except String JValue
  factualityCall : String → Except String JValue

/-- A success entry appended to `results` (lines 291–303). -/
structure SuccessRecord where
  item_id : String
  category : String
  input : String
  actual_agent : JValue
  expected_agent : String
  response_preview : JValue
  latency : ℚ
  evaluations : List (String × JValue)
  overall_score : ℚ
  trace_id : String

/-- An error entry appended to `results` (lines 307–313). -/
structure ErrorRecord where
  item_id : String
  category : String
  input : String
  error : String

/-- One entry of the `results` list. -/
inductive ResultRecord where
  | success (r : SuccessRecord)
  | error (r : ErrorRecord)

/-- `verdict.get('score', 0)` followed by the numeric use of that value in
the `f"...{score:.2f}"` print (and the Langfuse score): raises unless the
value is numeric. -/
def checkVerdict (v : JValue) : Except String ℚ := do
  let s ← pyDictGet v "score" (.num 0)
  asNum s

/-- The score list comprehension
`[e.get('score', 0) for e in eval_results.values()]` together with the
numeric use of its elements by `sum(scores)` (lines 281–282), left to
right. -/
def collectScores : List (String × JValue) → Except String (List ℚ)
  | [] => .ok []
  | e :: rest => do
      let q ← checkVerdict e.2
      let qs ← collectScores rest
      pure (q :: qs)

/-- The routing-evaluation step (lines 242–253): when the item's expected
agent is not `'any'`, run the routing judge and read its score (for the
Langfuse score and the `:.2f` print), contributing a one-entry evaluation
map; otherwise contribute nothing. -/
def routingStep (item : Item) (demo : JValue)
    (call : String → Except String JValue) : Except String (List (String × JValue)) :=
  if item.expected_agent ≠ "any" then do
    let vr ← evaluate_routing item demo call
    let _ ← checkVerdict vr
    pure [("routing", vr)]
  else pure []

/-- The factuality-evaluation step (lines 267–278): when the item's
`expected_answer_contains` is truthy, run the factuality judge and read its
score, appending a `'factuality'` entry to the evaluation map built so far;
otherwise leave the map unchanged. -/
def factualityStep (item : Item) (demo : JValue)
    (call : String → Except String JValue) (evalsQ : List (String × JValue)) :
    Except String (List (String × JValue)) :=
  if pyTruthy item.expected_answer_contains then do
    let vf ← evaluate_factuality item demo call
    let _ ← checkVerdict vf
    pure (evalsQ ++ [("factuality", vf)])
  else pure evalsQ

/-- The body of the `try:` block of one loop iteration of `run_evaluation`
(lines 218–303), as an `Except` computation: any raised exception
short-circuits with its message.  Steps, in source order: the demo query;
`actual_agent` and `response_text` extraction; the routing judge (only when
`expected_agent != 'any'`) with its score read; the quality judge with its
score read; the factuality judge (only when `expected_answer_contains` is
truthy) with its score read; the overall score as
`sum(scores)/len(scores)`; the `response_text[:200]` preview slice taken at
record-construction time. -/
def processItemE (item : Item) (oc : ItemOutcome) : Except String SuccessRecord := do
  let demo ← oc.demoResult
  let rt ← pyDictGet demo "routed_to" (.obj [])
  let actualAgent ← pyDictGet rt "agent" (.str "unknown")
  let responseText ← pyDictGet demo "response" (.str "")
  let evalsR ← routingStep item demo oc.routingCall
  let vq ← evaluate_quality item demo oc.qualityCall
  let _ ← checkVerdict vq
  let evalsF ← factualityStep item demo oc.factualityCall (evalsR ++ [("quality", vq)])
  let scores ← collectScores evalsF
  let preview ← pySlice responseText 200
  pure { item_id := item.id
         category := item.category
         input := item.input
         actual_agent := actualAgent
         expected_agent := item.expected_agent
         response_preview := preview
         latency := oc.latency
         evaluations := evalsF
         overall_score := if scores.isEmpty then 0 else scores.sum / (scores.length : ℚ)
         trace_id := oc.traceId }

/-- One loop iteration of `run_evaluation`: the `try` body on success
appends a success record, any exception is caught by `except Exception`
(lines 305–313) and appends an error record for the same item. -/
def processItem (item : Item) (oc : ItemOutcome) : ResultRecord :=
  match processItemE item oc with
  | .ok r => .success r
  | .error e =>
      .error { item_id := item.id, category := item.category,
               input := item.input, error := e }

/-- The evaluation dataset (`dataset.json`): a name and an ordered item
list. -/
structure Dataset where
  name : String
  items : List Item

/-- The `for i, item in enumerate(dataset['items'])` loop (lines 202–317):
one record per item, in order; the oracle gives the external outcomes of
iteration `n`. -/
def runItems : List Item → (ℕ → ItemOutcome) → List ResultRecord
  | [], _ => []
  | it :: rest, oracle =>
      processItem it (oracle 0) :: runItems rest (fun n => oracle (n + 1))

/-- The `summary` block written to the results file (lines 370–374). -/
structure RunSummary where
  total : ℕ
  successful : ℕ
  average_overall_score : ℚ

/-- What `run_evaluation` persists: the per-item result list and the
summary block of the output JSON (lines 361–376). -/
structure RunOutput where
  results : List ResultRecord
  summary : RunSummary

/-- The success entries of a result list, in order
(`[r for r in results if r['status'] == 'success']`). -/
def successesOf (results : List ResultRecord) : List SuccessRecord :=
  results.filterMap fun r =>
    match r with
    | .success s => some s
    | .error _ => none

/-- `run_evaluation` (lines 184–378), restricted to its persisted output:
run every item through the loop, then build the summary with
`total = len(results)`, `successful = len(successful)` and the mean overall
score of the successful items (0 when none succeeded). -/
def run_evaluation (ds : Dataset) (oracle : ℕ → ItemOutcome) : RunOutput :=
  let results := runItems ds.items oracle
  let succ := successesOf results
  { results := results
    summary := { total := results.length
                 successful := succ.length
                 average_overall_score :=
                   if succ.isEmpty then 0
                   else (succ.map fun r => r.overall_score).sum / (succ.length : ℚ) } }

end EvalRun

/-- A concrete backend whose upstream calls all fail with a connection
error, used to instantiate witnesses. -/
def sampleBackend : ChatUI.Backend :=
  { agents := .urlError "connection refused"
    ask := fun _ => .urlError "connection refused" }

/-- The C8 invariant of one response: it carries the CORS origin header and
a `Content-Length` header equal to the byte length of its body. -/
def jsonInv (r : ChatUI.HttpResponse) : Prop :=
  ("Access-Control-Allow-Origin", "*") ∈ r.headers ∧
  ("Content-Length", toString r.body.utf8ByteSize) ∈ r.headers

/-- A concrete dataset item with a truthy `expected_answer_contains`, used
to instantiate witnesses. -/
def sampleItem : EvalRun.Item :=
  { id := "billing-1"
    category := "billing"
    input := "Why was I charged twice?"
    expected_agent := "billing"
    expected_answer_contains := .str "refund"
    quality_criteria := some (.str "Explain the charge") }

/-- A concrete dataset item without `expected_answer_contains`, used to
instantiate witnesses. -/
def sampleItemNoEAC : EvalRun.Item :=
  { id := "helpdesk-1"
    category := "helpdesk"
    input := "How do I reset my password?"
    expected_agent := "helpdesk"
    expected_answer_contains := .null
    quality_criteria := none }

/-- A concrete demo reply object, used to instantiate witnesses. -/
def sampleDemo : JValue :=
  .obj [("routed_to", .obj [("agent", .str "billing")]),
        ("response", .str "You were charged twice; a refund is on its way.")]

/-- Concrete loop-iteration outcomes in which every external call
succeeds: the demo reply is `sampleDemo` and the three judges answer with
scores 1, 1/2 and 0 respectively. -/
def sampleOutcome : EvalRun.ItemOutcome :=
  { demoResult := .ok sampleDemo
    latency := 2
    traceId := "trace-1"
    routingCall := fun _ => .ok (.obj [("score", .num 1), ("reasoning", .str "correct")])
    qualityCall := fun _ => .ok (.obj [("score", .num (1/2)), ("reasoning", .str "partial")])
    factualityCall := fun _ => .ok (.obj [("score", .num 0), ("reasoning", .str "missing")]) }

/-- Concrete loop-iteration outcomes in which the demo query raises. -/
def sampleOutcomeFail : EvalRun.ItemOutcome :=
  { demoResult := .error "ConnectionError"
    latency := 0
    traceId := "trace-2"
    routingCall := fun _ => .error "unused"
    qualityCall := fun _ => .error "unused"
    factualityCall := fun _ => .error "unused" }

/-- The success record produced by processing `sampleItem` under
`sampleOutcome`, extracted from the computation itself so that witnesses
can state facts about it. -/
def sampleRecord : EvalRun.SuccessRecord :=
  match EvalRun.processItemE sampleItem sampleOutcome with
  | .ok r => r
  | .error _ =>
      { item_id := "", category := "", input := "", actual_agent := .null,
        expected_agent := "", response_preview := .null, latency := 0,
        evaluations := [], overall_score := 0, trace_id := "" }

/-- The success record produced by processing `sampleItemNoEAC` under
`sampleOutcome`, extracted from the computation itself so that witnesses
can state facts about it. -/
def sampleRecordNoEAC : EvalRun.SuccessRecord :=
  match EvalRun.processItemE sampleItemNoEAC sampleOutcome with
  | .ok r => r
  | .error _ =>
      { item_id := "", category := "", input := "", actual_agent := .null,
        expected_agent := "", response_preview := .null, latency := 0,
        evaluations := [], overall_score := 0, trace_id := "" }

/-- A two-item dataset whose first item fails and second item succeeds
under `sampleOracle`, used to instantiate the C1 witness. -/
def sampleDataset : EvalRun.Dataset :=
  { name := "agentgateway-eval-dataset"
    items := [sampleItemNoEAC, sampleItem] }

/-- Per-iteration outcomes for `sampleDataset`: iteration 0 fails at the
demo query, iteration 1 fully succeeds. -/
def sampleOracle : ℕ → EvalRun.ItemOutcome :=
  fun n => if n = 0 then sampleOutcomeFail else sampleOutcome

section ServerClaims

open ChatUI

/-- Every response built by `send_json` carries the CORS origin header, a
`Content-Length` equal to the byte length of its serialized body, and that
serialized body. -/
theorem send_json_headers (d : JValue) (s : ℕ) :
    ("Access-Control-Allow-Origin", "*") ∈ (send_json d s).headers ∧
    ("Content-Length", toString (send_json d s).body.utf8ByteSize) ∈ (send_json d s).headers ∧
    (send_json d s).body = serialize d ∧ (send_json d s).status = s := by
  simp [send_json]

/-- C7: every OPTIONS request, whatever its path, is answered with status
200, the three CORS headers
(`Access-Control-Allow-Origin`, `Access-Control-Allow-Methods`,
`Access-Control-Allow-Headers`), and an empty body. -/
theorem C7_options_preflight (path : String) :
    (do_OPTIONS path).status = 200 ∧
    ("Access-Control-Allow-Origin", "*") ∈ (do_OPTIONS path).headers ∧
    ("Access-Control-Allow-Methods", "GET, POST, OPTIONS") ∈ (do_OPTIONS path).headers ∧
    ("Access-Control-Allow-Headers", "Content-Type") ∈ (do_OPTIONS path).headers ∧
    (do_OPTIONS path).body = "" := by
  refine ⟨rfl, ?_, ?_, ?_, rfl⟩ <;> simp [do_OPTIONS]

/-- C9: every POST whose path is not `/api/ask` is answered with status 404
and the JSON body `{"error": "Not found"}`; `do_POST` never consults the
static file handler (its result is always a `send_json` response). -/
theorem C9_post_not_found (path : String) (body : BodyInput) (bk : Backend)
    (h : path ≠ "/api/ask") :
    do_POST path body bk = (send_json (.obj [("error", .str "Not found")]) 404, none) := by
  simp [do_POST, h]

theorem C9_post_not_found_witness :
    do_POST "/api/health" BodyInput.empty sampleBackend =
      (send_json (.obj [("error", .str "Not found")]) 404, none) :=
  C9_post_not_found "/api/health" BodyInput.empty sampleBackend (by decide)

theorem jsonInv_send_json (d : JValue) (s : ℕ) : jsonInv (send_json d s) := by
  simp [jsonInv, send_json]

theorem jsonInv_handleAsk (v : JValue) (bk : Backend) : jsonInv (handleAsk v bk).1 := by
  cases v with
  | obj kvs =>
      simp only [handleAsk]
      split
      · exact jsonInv_send_json _ _
      · split <;> exact jsonInv_send_json _ _
  | null => exact jsonInv_send_json _ _
  | bool b => exact jsonInv_send_json _ _
  | num q => exact jsonInv_send_json _ _
  | str s => exact jsonInv_send_json _ _
  | arr xs => exact jsonInv_send_json _ _

/-- C8: every JSON response the proxy produces — whether built directly by
`send_json`, returned by `do_POST` (all of whose responses are JSON), or
returned by a JSON branch of `do_GET` — carries the header
`Access-Control-Allow-Origin: *` and a `Content-Length` header equal to the
byte length of its serialized JSON body (the body of a `send_json` response
being exactly the serialization of its data). -/
theorem C8_json_response_invariant :
    (∀ d s, jsonInv (send_json d s) ∧ (send_json d s).body = serialize d) ∧
    (∀ path body bk, jsonInv (do_POST path body bk).1) ∧
    (∀ path bk r, do_GET path bk = .json r → jsonInv r) := by
  refine ⟨fun d s => ⟨jsonInv_send_json d s, (send_json_headers d s).2.2.1⟩, ?_, ?_⟩
  · intro path body bk
    unfold do_POST
    split
    · cases body with
      | empty => exact jsonInv_handleAsk _ _
      | invalid => exact jsonInv_send_json _ _
      | json v => exact jsonInv_handleAsk _ _
    · exact jsonInv_send_json _ _
  · intro path bk r h
    unfold do_GET at h
    split at h
    · cases h
      exact jsonInv_send_json _ _
    · split at h
      · cases hag : bk.agents <;> rw [hag] at h <;> cases h <;> exact jsonInv_send_json _ _
      · split at h <;> cases h

theorem C8_json_response_invariant_witness :
    jsonInv (send_json (.obj [("status", .str "healthy"), ("service", .str "chat-ui")]) 200) :=
  C8_json_response_invariant.2.2 "/api/health" sampleBackend
    (send_json (.obj [("status", .str "healthy"), ("service", .str "chat-ui")]) 200)
    (by simp [do_GET])

/-- C3: when the forwarded call fails because the backend is unreachable
(`urllib.error.URLError`), POST `/api/ask` answers 502 with a JSON error
payload and GET `/api/agents` answers 500 with a JSON error payload; the
static-file branches of `do_GET` do not depend on the backend at all. -/
theorem C3_backend_unreachable (bk : Backend) (kvs : List (String × JValue))
    (m : JValue) (e : String)
    (hm : (kvs.lookup "message").getD (.str "") = m)
    (ht : pyTruthy m = true)
    (hask : bk.ask (.obj [("message", m)]) = .urlError e) :
    do_POST "/api/ask" (.json (.obj kvs)) bk =
      (send_json (.obj [("error", .str ("Backend connection failed: " ++ e))]) 502,
       some (.obj [("message", m)])) ∧
    (∀ e2, bk.agents = .urlError e2 →
      do_GET "/api/agents" bk = .json (send_json (.obj [("error", .str e2)]) 500)) ∧
    (∀ path bk2, path ≠ "/api/health" → path ≠ "/api/agents" →
      do_GET path bk = do_GET path bk2) := by
  refine ⟨?_, ?_, ?_⟩
  · simp [do_POST, handleAsk, hm, ht, hask]
  · intro e2 hag
    simp [do_GET, hag]
  · intro path bk2 h1 h2
    simp [do_GET, h1, h2]

theorem C3_backend_unreachable_witness :
    (do_POST "/api/ask" (.json (.obj [("message", .str "hi")])) sampleBackend =
      (send_json (.obj [("error", .str "Backend connection failed: connection refused")]) 502,
       some (.obj [("message", .str "hi")])) ∧
    (∀ e2, sampleBackend.agents = .urlError e2 →
      do_GET "/api/agents" sampleBackend = .json (send_json (.obj [("error", .str e2)]) 500)) ∧
    (∀ path bk2, path ≠ "/api/health" → path ≠ "/api/agents" →
      do_GET path sampleBackend = do_GET path bk2)) ∧
    do_GET "/api/agents" sampleBackend =
      .json (send_json (.obj [("error", .str "connection refused")]) 500) := by
  have h := C3_backend_unreachable sampleBackend [("message", .str "hi")]
    (.str "hi") "connection refused" rfl (by decide) rfl
  exact ⟨h, h.2.1 "connection refused" rfl⟩

/-- C2 as stated is false: a POST body that is valid JSON but not an object
(here the JSON array `[]`) has no non-empty `message` field, yet the server
answers 500 (the `AttributeError` raised by `request_data.get` is caught by
the generic `except Exception` branch), not 400.  No forwarding request is
issued either way. -/
theorem C2_counterexample :
    (do_POST "/api/ask" (.json (.arr [])) sampleBackend).1.status = 500 ∧
    ¬ (do_POST "/api/ask" (.json (.arr [])) sampleBackend).1.status = 400 ∧
    (do_POST "/api/ask" (.json (.arr [])) sampleBackend).2 = none := by
  refine ⟨?_, ?_, ?_⟩ <;> simp [do_POST, handleAsk, send_json]

/-- C2 (amended): a POST to `/api/ask` whose body is empty, is not valid
JSON, or parses to a JSON *object* without a non-empty `message` field is
answered 400 without any forwarding request to the backend; a body that
parses to a non-object JSON value is answered 500, likewise without
forwarding. -/
theorem C2_amended_bad_ask_bodies (bk : Backend) :
    (do_POST "/api/ask" .empty bk =
      (send_json (.obj [("error", .str "Message is required")]) 400, none)) ∧
    (do_POST "/api/ask" .invalid bk =
      (send_json (.obj [("error", .str "Invalid JSON")]) 400, none)) ∧
    (∀ kvs, pyTruthy ((kvs.lookup "message").getD (.str "")) = false →
      do_POST "/api/ask" (.json (.obj kvs)) bk =
        (send_json (.obj [("error", .str "Message is required")]) 400, none)) ∧
    (∀ v : JValue, v.isObj = false →
      do_POST "/api/ask" (.json v) bk =
        (send_json (.obj [("error", .str "AttributeError")]) 500, none)) := by
  refine ⟨?_, ?_, ?_, ?_⟩
  · simp [do_POST, handleAsk, pyTruthy]
  · simp [do_POST]
  · intro kvs h
    simp [do_POST, handleAsk, h]
  · intro v h
    cases v <;> simp_all [do_POST, handleAsk, JValue.isObj]

theorem C2_amended_bad_ask_bodies_witness :
    do_POST "/api/ask" (.json (.obj [("message", .str "")])) sampleBackend =
      (send_json (.obj [("error", .str "Message is required")]) 400, none) ∧
    do_POST "/api/ask" (.json (.num 3)) sampleBackend =
      (send_json (.obj [("error", .str "AttributeError")]) 500, none) :=
  ⟨(C2_amended_bad_ask_bodies sampleBackend).2.2.1 [("message", .str "")] (by decide),
   (C2_amended_bad_ask_bodies sampleBackend).2.2.2 (.num 3) rfl⟩

end ServerClaims

section EvalClaims

open EvalRun

theorem exBind_ok {α β : Type} (a : α) (f : α → Except String β) :
    (Except.ok a >>= f) = f a := rfl

theorem exBind_err {α β : Type} (e : String) (f : α → Except String β) :
    ((Except.error e : Except String α) >>= f) = .error e := rfl

theorem exPure {α : Type} (a : α) : (pure a : Except String α) = Except.ok a := rfl

/-- Inversion of a successful `Except` bind. -/
theorem exBind_ok_inv {α β : Type} {x : Except String α} {f : α → Except String β}
    {b : β} (h : (x >>= f) = .ok b) : ∃ a, x = .ok a ∧ f a = .ok b := by
  cases hx : x with
  | error e => rw [hx, exBind_err] at h; cases h
  | ok a => rw [hx, exBind_ok] at h; exact ⟨a, rfl, h⟩

/-- When the score check of a verdict succeeds with `q`, the total score
reading `scoreOf` agrees with `q`. -/
theorem checkVerdict_scoreOf {v : JValue} {q : ℚ}
    (h : checkVerdict v = .ok q) : scoreOf v = q := by
  cases v with
  | obj kvs =>
      simp only [checkVerdict, pyDictGet, exBind_ok] at h
      cases hl : kvs.lookup "score" with
      | none =>
          rw [hl] at h
          simp only [Option.getD_none, asNum] at h
          injection h with h
          simp [scoreOf, hl, ← h]
      | some s =>
          rw [hl] at h
          simp only [Option.getD_some] at h
          cases s with
          | num q2 =>
              simp only [asNum] at h
              injection h with h
              simp [scoreOf, hl, ← h]
          | bool b =>
              simp only [asNum] at h
              injection h with h
              simp [scoreOf, hl, ← h]
          | null => simp only [asNum] at h; cases h
          | str s2 => simp only [asNum] at h; cases h
          | arr xs => simp only [asNum] at h; cases h
          | obj kvs2 => simp only [asNum] at h; cases h
  | null => simp only [checkVerdict, pyDictGet, exBind_err] at h; cases h
  | bool b => simp only [checkVerdict, pyDictGet, exBind_err] at h; cases h
  | num q2 => simp only [checkVerdict, pyDictGet, exBind_err] at h; cases h
  | str s => simp only [checkVerdict, pyDictGet, exBind_err] at h; cases h
  | arr xs => simp only [checkVerdict, pyDictGet, exBind_err] at h; cases h

/-- A successful score collection returns exactly the `scoreOf` readings of
the evaluation map, in order. -/
theorem collectScores_ok {l : List (String × JValue)} {scores : List ℚ}
    (h : collectScores l = .ok scores) :
    scores = l.map fun e => scoreOf e.2 := by
  induction l generalizing scores with
  | nil =>
      simp only [collectScores] at h
      injection h with h
      simp [← h]
  | cons a t ih =>
      simp only [collectScores] at h
      obtain ⟨q, hq, h⟩ := exBind_ok_inv h
      obtain ⟨qs, hqs, h⟩ := exBind_ok_inv h
      rw [exPure] at h
      injection h with h
      rw [← h, List.map_cons, checkVerdict_scoreOf hq, ih hqs]

/-- A key absent from the key list of an association list has no binding. -/
theorem lookup_eq_none {l : List (String × JValue)} {k : String}
    (h : k ∉ l.map Prod.fst) : l.lookup k = none := by
  induction l with
  | nil => rfl
  | cons a t ih =>
      obtain ⟨k1, v1⟩ := a
      simp only [List.map_cons, List.mem_cons] at h
      push_neg at h
      have hb : (k == k1) = false := beq_eq_false_iff_ne.mpr h.1
      simp [List.lookup, hb, ih h.2]

/-- A successful routing step contributes exactly a `'routing'` entry when
the expected agent is not `'any'`, and nothing otherwise. -/
theorem routingStep_keys {item : Item} {demo : JValue}
    {call : String → Except String JValue} {l : List (String × JValue)}
    (h : routingStep item demo call = .ok l) :
    l.map Prod.fst = if item.expected_agent ≠ "any" then ["routing"] else [] := by
  unfold routingStep at h
  by_cases hc : item.expected_agent ≠ "any"
  · rw [if_pos hc] at h
    obtain ⟨vr, h1, h⟩ := exBind_ok_inv h
    obtain ⟨qr, h2, h⟩ := exBind_ok_inv h
    rw [exPure] at h
    injection h with h
    rw [← h, if_pos hc]
    rfl
  · rw [if_neg hc] at h
    rw [exPure] at h
    injection h with h
    rw [← h, if_neg hc]
    rfl

/-- A successful factuality step appends exactly a `'factuality'` entry when
the expected content is truthy, and leaves the map unchanged otherwise. -/
theorem factualityStep_keys {item : Item} {demo : JValue}
    {call : String → Except String JValue} {evalsQ l : List (String × JValue)}
    (h : factualityStep item demo call evalsQ = .ok l) :
    l.map Prod.fst = evalsQ.map Prod.fst ++
      (if pyTruthy item.expected_answer_contains then ["factuality"] else []) := by
  unfold factualityStep at h
  by_cases hf : pyTruthy item.expected_answer_contains = true
  · rw [if_pos hf] at h
    obtain ⟨vf, h1, h⟩ := exBind_ok_inv h
    obtain ⟨qf, h2, h⟩ := exBind_ok_inv h
    rw [exPure] at h
    injection h with h
    rw [← h, if_pos hf]
    simp
  · rw [if_neg hf] at h
    rw [exPure] at h
    injection h with h
    rw [← h, if_neg hf]
    simp

/-- Master inversion lemma for a successful loop iteration: the evaluation
map's keys are exactly the conditionally performed judges, in order
(routing when the expected agent is not `'any'`, quality always,
factuality when expected content is truthy), and the recorded overall
score is the arithmetic mean of the `scoreOf` readings of exactly those
evaluations. -/
theorem processItemE_ok_spec {item : Item} {oc : ItemOutcome} {r : SuccessRecord}
    (h : processItemE item oc = .ok r) :
    r.evaluations.map Prod.fst =
      (if item.expected_agent ≠ "any" then ["routing"] else []) ++ ["quality"] ++
      (if pyTruthy item.expected_answer_contains then ["factuality"] else []) ∧
    r.overall_score =
      ((r.evaluations.map fun e => scoreOf e.2).sum) / (r.evaluations.length : ℚ) := by
  unfold processItemE at h
  obtain ⟨demo, h1, h⟩ := exBind_ok_inv h
  obtain ⟨rt, h2, h⟩ := exBind_ok_inv h
  obtain ⟨actualAgent, h3, h⟩ := exBind_ok_inv h
  obtain ⟨responseText, h4, h⟩ := exBind_ok_inv h
  obtain ⟨evalsR, h5, h⟩ := exBind_ok_inv h
  obtain ⟨vq, h6, h⟩ := exBind_ok_inv h
  obtain ⟨qq, h7, h⟩ := exBind_ok_inv h
  obtain ⟨evalsF, h8, h⟩ := exBind_ok_inv h
  obtain ⟨scores, h9, h⟩ := exBind_ok_inv h
  obtain ⟨preview, h10, h⟩ := exBind_ok_inv h
  rw [exPure] at h
  injection h with h
  subst h
  have hsc := collectScores_ok h9
  subst hsc
  have hkR := routingStep_keys h5
  have hkF := factualityStep_keys h8
  rw [List.map_append, hkR, List.map_cons, List.map_nil] at hkF
  have hne : evalsF ≠ [] := by
    intro hnil
    rw [hnil, List.map_nil] at hkF
    rcases List.append_eq_nil.mp hkF.symm with ⟨h21, -⟩
    rcases List.append_eq_nil.mp h21 with ⟨-, h22⟩
    cases h22
  have hie : (evalsF.map fun e => scoreOf e.2).isEmpty = false := by
    cases evalsF with
    | nil => exact absurd rfl hne
    | cons a t => rfl
  constructor
  · rw [hkF]
  · simp only [hie, Bool.false_eq_true, if_false, List.length_map]

/-- A `.success` result comes from a successful `processItemE` run on the
same record. -/
theorem processItem_success {item : Item} {oc : ItemOutcome} {r : SuccessRecord}
    (h : processItem item oc = .success r) : processItemE item oc = .ok r := by
  unfold processItem at h
  cases hE : processItemE item oc <;> rw [hE] at h
  · cases h
  · injection h with h
    rw [h]

/-- With falsy expected content, `processItemE` never consults the
factuality call site. -/
theorem processItemE_factuality_independent (item : Item)
    (h : pyTruthy item.expected_answer_contains = false) (oc : ItemOutcome)
    (f : String → Except String JValue) :
    processItemE item { oc with factualityCall := f } = processItemE item oc := by
  simp [processItemE, factualityStep, h]

/-- A demo-query exception turns the whole iteration into an error record
for the same item, carrying the exception text. -/
theorem processItem_demo_error (item : Item) (oc : ItemOutcome) (e : String)
    (h : oc.demoResult = .error e) :
    processItem item oc =
      .error { item_id := item.id, category := item.category,
               input := item.input, error := e } := by
  unfold processItem processItemE
  rw [h, exBind_err]

theorem runItems_length (items : List Item) (oracle : ℕ → ItemOutcome) :
    (runItems items oracle).length = items.length := by
  induction items generalizing oracle with
  | nil => rfl
  | cons a t ih => simp [runItems, ih]

theorem runItems_getElem (items : List Item) (oracle : ℕ → ItemOutcome) (i : ℕ) :
    (runItems items oracle)[i]? =
      (items[i]?).map fun it => processItem it (oracle i) := by
  induction items generalizing oracle i with
  | nil => simp [runItems]
  | cons a t ih =>
      cases i with
      | zero => simp [runItems]
      | succ n => simp [runItems, ih]

/-- C6: when the judge reply text (after markdown-fence stripping) fails to
parse as JSON, `call_azure_openai` does not raise: it returns a verdict
whose score is 0 and whose reasoning is the diagnostic
`"Failed to parse: "` followed by the unparseable (fence-stripped) reply. -/
theorem C6_unparseable_reply_zero_score (loads : String → Option JValue)
    (content : String) (h : loads (stripFences content).trim = none) :
    call_azure_openai loads (.ok content) =
      .ok (.obj [("score", .num 0),
        ("reasoning", .str ("Failed to parse: " ++ stripFences content))]) := by
  simp [call_azure_openai, parse_judge_reply, h]

theorem C6_unparseable_reply_zero_score_witness :
    call_azure_openai (fun _ => none) (.ok "not json") =
      .ok (.obj [("score", .num 0),
        ("reasoning", .str ("Failed to parse: " ++ stripFences "not json"))]) :=
  C6_unparseable_reply_zero_score (fun _ => none) "not json" rfl

/-- C10: with no (falsy) `expected_answer_contains`, `evaluate_factuality`
returns the fixed verdict `{"score": 1.0, "reasoning": "No expected content
specified"}` — the full score 1, unlike the 0 of parse failures — and its
result does not depend on the judge-call oracle at all, i.e. no request to
the completion API is made. -/
theorem C10_factuality_fallback (item : Item) (result : JValue)
    (call call2 : String → Except String JValue)
    (h : pyTruthy item.expected_answer_contains = false) :
    evaluate_factuality item result call =
      .ok (.obj [("score", .num 1), ("reasoning", .str "No expected content specified")]) ∧
    evaluate_factuality item result call = evaluate_factuality item result call2 := by
  constructor <;> simp [evaluate_factuality, h]

theorem C10_factuality_fallback_witness :
    evaluate_factuality sampleItemNoEAC sampleDemo (fun _ => .error "boom") =
      .ok (.obj [("score", .num 1), ("reasoning", .str "No expected content specified")]) ∧
    evaluate_factuality sampleItemNoEAC sampleDemo (fun _ => .error "boom") =
      evaluate_factuality sampleItemNoEAC sampleDemo (fun _ => .ok (.obj [])) :=
  C10_factuality_fallback sampleItemNoEAC sampleDemo
    (fun _ => .error "boom") (fun _ => .ok (.obj [])) rfl

/-- C4: for an item whose `expected_answer_contains` is absent or empty
(falsy), a loop iteration never consults the factuality judge call site
(the result is invariant under replacing that oracle), and a successful
iteration's evaluation map has no `'factuality'` binding. -/
theorem C4_factuality_skipped (item : Item)
    (h : pyTruthy item.expected_answer_contains = false) :
    (∀ oc f, processItem item { oc with factualityCall := f } = processItem item oc) ∧
    (∀ oc r, processItem item oc = .success r →
      r.evaluations.lookup "factuality" = none) := by
  constructor
  · intro oc f
    unfold processItem
    rw [processItemE_factuality_independent item h oc f]
  · intro oc r hr
    have hE := processItem_success hr
    have hk := (processItemE_ok_spec hE).1
    apply lookup_eq_none
    rw [hk]
    by_cases hc : item.expected_agent ≠ "any" <;> simp [h, hc]

theorem C4_factuality_skipped_witness :
    (processItem sampleItemNoEAC
        { sampleOutcome with factualityCall := fun _ => Except.error "unused" } =
      processItem sampleItemNoEAC sampleOutcome) ∧
    sampleRecordNoEAC.evaluations.lookup "factuality" = none :=
  ⟨(C4_factuality_skipped sampleItemNoEAC rfl).1 sampleOutcome (fun _ => Except.error "unused"),
   (C4_factuality_skipped sampleItemNoEAC rfl).2 sampleOutcome sampleRecordNoEAC rfl⟩

/-- C5: for every successfully processed item, the recorded overall score
is the arithmetic mean of the scores of exactly the evaluations that were
performed, whose keys are: `'routing'` only when the expected agent is not
`'any'`, `'quality'` always, `'factuality'` only when expected content is
specified (truthy). -/
theorem C5_overall_score_is_mean (item : Item) (oc : ItemOutcome) (r : SuccessRecord)
    (h : processItem item oc = .success r) :
    r.overall_score =
      ((r.evaluations.map fun e => scoreOf e.2).sum) / (r.evaluations.length : ℚ) ∧
    r.evaluations.map Prod.fst =
      (if item.expected_agent ≠ "any" then ["routing"] else []) ++ ["quality"] ++
      (if pyTruthy item.expected_answer_contains then ["factuality"] else []) := by
  have hE := processItem_success h
  have hs := processItemE_ok_spec hE
  exact ⟨hs.2, hs.1⟩

theorem C5_overall_score_is_mean_witness :
    sampleRecord.overall_score =
      ((sampleRecord.evaluations.map fun e => scoreOf e.2).sum) /
        (sampleRecord.evaluations.length : ℚ) ∧
    sampleRecord.evaluations.map Prod.fst =
      (if sampleItem.expected_agent ≠ "any" then ["routing"] else []) ++ ["quality"] ++
      (if pyTruthy sampleItem.expected_answer_contains then ["factuality"] else []) :=
  C5_overall_score_is_mean sampleItem sampleOutcome sampleRecord rfl

/-- C1: `run_evaluation` appends exactly one result record per dataset
item: the summary total and the results length both equal the dataset's
item count whatever the outcomes were; the record at each index is exactly
the processing of that index's item (so an exception at one item leaves
every other item's record unchanged); and an exception raised by the demo
query of item `i` yields an error entry for that very item. -/
theorem C1_one_record_per_item (ds : Dataset) (oracle : ℕ → ItemOutcome) :
    (run_evaluation ds oracle).summary.total = ds.items.length ∧
    (run_evaluation ds oracle).results.length = ds.items.length ∧
    (∀ i, (run_evaluation ds oracle).results[i]? =
      (ds.items[i]?).map fun it => processItem it (oracle i)) ∧
    (∀ i it e, ds.items[i]? = some it → (oracle i).demoResult = .error e →
      (run_evaluation ds oracle).results[i]? =
        some (.error { item_id := it.id, category := it.category,
                       input := it.input, error := e })) := by
  refine ⟨runItems_length ds.items oracle, runItems_length ds.items oracle, ?_, ?_⟩
  · intro i
    exact runItems_getElem ds.items oracle i
  · intro i it e hit hd
    show (runItems ds.items oracle)[i]? = _
    rw [runItems_getElem ds.items oracle i, hit]
    simp [processItem_demo_error it (oracle i) e hd]

theorem C1_one_record_per_item_witness :
    (run_evaluation sampleDataset sampleOracle).summary.total = 2 ∧
    (run_evaluation sampleDataset sampleOracle).results[0]? =
      some (.error { item_id := "helpdesk-1", category := "helpdesk",
                     input := "How do I reset my password?",
                     error := "ConnectionError" }) ∧
    (run_evaluation sampleDataset sampleOracle).results[1]? =
      some (processItem sampleItem (sampleOracle 1)) :=
  ⟨(C1_one_record_per_item sampleDataset sampleOracle).1,
   (C1_one_record_per_item sampleDataset sampleOracle).2.2.2 0 sampleItemNoEAC
     "ConnectionError" rfl rfl,
   (C1_one_record_per_item sampleDataset sampleOracle).2.2.1 1⟩

end EvalClaims
